import Mathlib

/-!
Shallow embedding of the tic-tac-toe repository (plmwd/tic-tac-toe).

The embedding covers:
* `src/board.rs` — `Player`, `TileId`, `Board` (§ TicTacToe.BoardM);
* `src/game.rs` — `Game`, `mark`, `is_valid_mark`, `has_game_concluded`,
  `next_turn` (§ TicTacToe.GameM);
* `src/main.rs` — the duplicate work-in-progress copy of the same engine,
  whose `has_game_concluded` uses the threshold `mark_count <= 3`
  (§ TicTacToe.MainM);
* `src/server.rs` — the session actor: `Server`, `handle_request`,
  `handle_new_connection`, `handle_disconnect` (§ TicTacToe.ServerM);
* `src/connection.rs` — `Connection::recv` (§ TicTacToe.ConnM).

Machine integers: the only machine-integer arithmetic in the modelled code is
`mark_count` (a `u8` counting at most 9 occupied cells, so no overflow is
possible) and `next_conn_id += 1` (a `u32` accept counter; overflow is not
reachable in any scenario treated here); both are modelled as `Nat`.
-/

namespace TicTacToe

/-- `Player` from src/board.rs: binary value `O` or `X`. -/
inductive Player where
  | O : Player
  | X : Player
deriving DecidableEq, Repr

/-- `impl Not for Player` from src/board.rs: negation flips the symbol. -/
def Player.not : Player → Player
  | Player.O => Player.X
  | Player.X => Player.O

/-- `impl Display for Player` from src/board.rs. -/
def Player.show : Player → String
  | Player.O => "O"
  | Player.X => "X"

/-- `Conclusion` from src/game.rs: `Win(Player) | Draw`. -/
inductive Conclusion where
  | win : Player → Conclusion
  | draw : Conclusion
deriving DecidableEq, Repr

/-- `TileId` from src/board.rs: a newtype over the linear cell index
(`rank*3+file`, 0-based).  The Rust field is a `u8`; every value produced by
the public interface is below 9 (proved in the C10 theorem), so `Nat` loses
nothing. -/
structure TileId where
  val : Nat
deriving DecidableEq, Repr

def TileId.A1 : TileId := ⟨0⟩
def TileId.B1 : TileId := ⟨1⟩
def TileId.C1 : TileId := ⟨2⟩
def TileId.A2 : TileId := ⟨3⟩
def TileId.B2 : TileId := ⟨4⟩
def TileId.C2 : TileId := ⟨5⟩
def TileId.A3 : TileId := ⟨6⟩
def TileId.B3 : TileId := ⟨7⟩
def TileId.C3 : TileId := ⟨8⟩

/-- `impl FromStr for TileId` from src/board.rs: exact match over the nine
lower-case and nine upper-case coordinate strings, anything else is a parse
failure (`Err(())` becomes `none`). -/
def TileId.fromStr (s : String) : Option TileId :=
  match s with
  | "a1" | "A1" => some TileId.A1
  | "a2" | "A2" => some TileId.A2
  | "a3" | "A3" => some TileId.A3
  | "b1" | "B1" => some TileId.B1
  | "b2" | "B2" => some TileId.B2
  | "b3" | "B3" => some TileId.B3
  | "c1" | "C1" => some TileId.C1
  | "c2" | "C2" => some TileId.C2
  | "c3" | "C3" => some TileId.C3
  | _ => none

/-- `Board` from src/board.rs: a fixed array `[Option<Player>; 9]`, modelled
as a length-9 list. -/
def Board : Type := { l : List (Option Player) // l.length = 9 }

instance : DecidableEq Board := fun a b =>
  match decEq a.1 b.1 with
  | isTrue h => isTrue (Subtype.ext h)
  | isFalse h => isFalse (fun hab => h (congrArg Subtype.val hab))

/-- `Board::default()`: all nine cells empty. -/
def Board.empty : Board := ⟨List.replicate 9 none, by simp⟩

/-- `impl Index<TileId> for Board` (src/board.rs): `self.tiles[tile.0]`.
In Rust an out-of-range index panics; the C10 theorem shows every tile
reachable through the public interface is in range, and all call sites in
the modelled code use in-range tiles, where `getD _ none` agrees with the
array access. -/
def Board.get (b : Board) (t : TileId) : Option Player :=
  b.1.getD t.val none

/-- `Board::mark(tile, player)` (src/board.rs): `self[tile] = Some(player)`
through `IndexMut`. -/
def Board.markCell (b : Board) (t : TileId) (p : Player) : Board :=
  ⟨b.1.set t.val (some p), by rw [List.length_set]; exact b.2⟩

/-- `Board::mark_count()` (src/board.rs): `tiles.iter().flatten().count()`,
the number of occupied cells (at most 9, so the `as u8` cast is lossless). -/
def Board.markCount (b : Board) : Nat :=
  b.1.countP (fun c => c.isSome)

/-- Board built from nine explicit cells, rank-1 row first (linear order
of the Rust array). -/
def mkBoard (c0 c1 c2 c3 c4 c5 c6 c7 c8 : Option Player) : Board :=
  ⟨[c0, c1, c2, c3, c4, c5, c6, c7, c8], rfl⟩

/-- One `if let Some(player) = anchor { if cond { return Some(Win(player)) } }`
block of `has_game_concluded`: on fall-through, continue with `rest`. -/
def tryWin (anchor : Option Player) (cond : Prop) [Decidable cond]
    (rest : Option Conclusion) : Option Conclusion :=
  match anchor with
  | some p => if cond then some (Conclusion.win p) else rest
  | none => rest

namespace GameM

/-- `Game<InProgress>` from src/game.rs: board plus the `InProgress { turn }`
state. -/
structure Game where
  board : Board
  turn : Player
deriving DecidableEq

/-- `Game::new(first_turn)` (src/game.rs): default board, given first turn. -/
def Game.new (first : Player) : Game :=
  { board := Board.empty, turn := first }

/-- `Game<Conclusion>` from src/game.rs: board plus conclusion. -/
structure ConcludedGame where
  board : Board
  conclusion : Conclusion
deriving DecidableEq

/-- `TurnResult` from src/game.rs. -/
inductive TurnResult where
  | retry : Game → TurnResult
  | nextTurn : Game → TurnResult
  | concluded : ConcludedGame → TurnResult
deriving DecidableEq

/-- `Game::has_game_concluded` from src/game.rs (lines 107-152): early `None`
while `mark_count < 3`, then the four anchored win checks in source order
(anchors A1, C1, B2, A3; the comparisons are on `Option<Player>` values
exactly as in the source), then `Draw` at `mark_count == 9`, else `None`. -/
def hasGameConcluded (b : Board) : Option Conclusion :=
  let markCount := b.markCount
  if markCount < 3 then none
  else
    let a1 := b.get TileId.A1
    let a2 := b.get TileId.A2
    let a3 := b.get TileId.A3
    let b1 := b.get TileId.B1
    let b2 := b.get TileId.B2
    let b3 := b.get TileId.B3
    let c1 := b.get TileId.C1
    let c2 := b.get TileId.C2
    let c3 := b.get TileId.C3
    tryWin a1 ((a1 = a3 ∧ a1 = a2) ∨ (a1 = c1 ∧ a1 = b1) ∨ (a1 = c3 ∧ a1 = b2))
      (tryWin c1 ((c1 = c3 ∧ c1 = c2) ∨ (c1 = a3 ∧ c1 = b2))
        (tryWin b2 ((b2 = a2 ∧ b2 = c2) ∨ (b2 = b1 ∧ b2 = b3))
          (tryWin a3 (a3 = c3 ∧ c3 = b3)
            (if markCount = 9 then some Conclusion.draw else none))))

/-- `Game::is_valid_mark(tile)` (src/game.rs line 154-156):
`self.board[tile].is_none()`. -/
def isValidMark (g : Game) (t : TileId) : Bool :=
  (g.board.get t).isNone

/-- `Game::next_turn` (src/game.rs): flips the active player. -/
def Game.nextTurn (g : Game) : Game :=
  { g with turn := g.turn.not }

/-- `Game::mark(tile)` from src/game.rs (lines 86-101): reject an occupied
tile with `Retry(self)`, otherwise write the mark, then either conclude or
flip the turn. -/
def mark (g : Game) (t : TileId) : TurnResult :=
  if ¬ isValidMark g t then TurnResult.retry g
  else
    let b := g.board.markCell t g.turn
    match hasGameConcluded b with
    | some c => TurnResult.concluded { board := b, conclusion := c }
    | none => TurnResult.nextTurn (Game.nextTurn { g with board := b })

end GameM

namespace MainM

/-- `has_game_concluded` from src/main.rs (lines 163-208): the duplicate
work-in-progress copy of the engine.  Identical to the src/game.rs version
(under the renaming A0..C2 ↦ A1..C3 of the same linear indices) except for
the early-out threshold: `if mark_count <= 3 { return None }`. -/
def hasGameConcluded (b : Board) : Option Conclusion :=
  let markCount := b.markCount
  if markCount ≤ 3 then none
  else
    let a1 := b.get TileId.A1
    let a2 := b.get TileId.A2
    let a3 := b.get TileId.A3
    let b1 := b.get TileId.B1
    let b2 := b.get TileId.B2
    let b3 := b.get TileId.B3
    let c1 := b.get TileId.C1
    let c2 := b.get TileId.C2
    let c3 := b.get TileId.C3
    tryWin a1 ((a1 = a3 ∧ a1 = a2) ∨ (a1 = c1 ∧ a1 = b1) ∨ (a1 = c3 ∧ a1 = b2))
      (tryWin c1 ((c1 = c3 ∧ c1 = c2) ∨ (c1 = a3 ∧ c1 = b2))
        (tryWin b2 ((b2 = a2 ∧ b2 = c2) ∨ (b2 = b1 ∧ b2 = b3))
          (tryWin a3 (a3 = c3 ∧ c3 = b3)
            (if markCount = 9 then some Conclusion.draw else none))))

end MainM

/-- The 8 standard lines of the 3×3 grid, as linear indices: 3 rows,
3 columns, 2 diagonals.  This definition follows the spec's words and is
used only to compare the source's `has_game_concluded` against it. -/
def standardLines : List (List Nat) :=
  [[0, 1, 2], [3, 4, 5], [6, 7, 8],
   [0, 3, 6], [1, 4, 7], [2, 5, 8],
   [0, 4, 8], [2, 4, 6]]

/-- Spec-side winning condition: some standard line has all three cells
occupied by player `p`. -/
def lineWin (b : Board) (p : Player) : Prop :=
  ∃ l ∈ standardLines, ∀ i ∈ l, b.get ⟨i⟩ = some p

instance (b : Board) (p : Player) : Decidable (lineWin b p) := by
  unfold lineWin; infer_instance

instance : Fintype Player :=
  ⟨⟨{Player.O, Player.X}, by decide⟩, fun p => by cases p <;> decide⟩

/-- The fall-through tail of `has_game_concluded`: `Draw` at nine marks,
`None` otherwise.  Named unfolding of the source definition (see
`hasGameConcluded_eq`). -/
def winRest (b : Board) : Option Conclusion :=
  if b.markCount = 9 then some Conclusion.draw else none

/-- Condition of the A1-anchored win check of `has_game_concluded`:
column A, rank-1 row, or the A1-B2-C3 diagonal. -/
def condA1 (b : Board) : Prop :=
  (b.get TileId.A1 = b.get TileId.A3 ∧ b.get TileId.A1 = b.get TileId.A2) ∨
  (b.get TileId.A1 = b.get TileId.C1 ∧ b.get TileId.A1 = b.get TileId.B1) ∨
  (b.get TileId.A1 = b.get TileId.C3 ∧ b.get TileId.A1 = b.get TileId.B2)

/-- Condition of the C1-anchored win check: column C or the C1-B2-A3
diagonal. -/
def condC1 (b : Board) : Prop :=
  (b.get TileId.C1 = b.get TileId.C3 ∧ b.get TileId.C1 = b.get TileId.C2) ∨
  (b.get TileId.C1 = b.get TileId.A3 ∧ b.get TileId.C1 = b.get TileId.B2)

/-- Condition of the B2-anchored win check: rank-2 row or column B. -/
def condB2 (b : Board) : Prop :=
  (b.get TileId.B2 = b.get TileId.A2 ∧ b.get TileId.B2 = b.get TileId.C2) ∨
  (b.get TileId.B2 = b.get TileId.B1 ∧ b.get TileId.B2 = b.get TileId.B3)

/-- Condition of the A3-anchored win check: rank-3 row. -/
def condA3 (b : Board) : Prop :=
  b.get TileId.A3 = b.get TileId.C3 ∧ b.get TileId.C3 = b.get TileId.B3

instance (b : Board) : Decidable (condA1 b) := by unfold condA1; infer_instance

instance (b : Board) : Decidable (condC1 b) := by unfold condC1; infer_instance

instance (b : Board) : Decidable (condB2 b) := by unfold condB2; infer_instance

instance (b : Board) : Decidable (condA3 b) := by unfold condA3; infer_instance

/-- The four anchored win checks of `has_game_concluded` in source order,
followed by the draw check: a named form of the body of the source
definition after the early-out, proved identical in `hasGameConcluded_eq`. -/
def winChain (b : Board) : Option Conclusion :=
  tryWin (b.get TileId.A1) (condA1 b)
    (tryWin (b.get TileId.C1) (condC1 b)
      (tryWin (b.get TileId.B2) (condB2 b)
        (tryWin (b.get TileId.A3) (condA3 b) (winRest b))))

/-- Board with the rank-1 row (A1, B1, C1) marked by `O` and nothing else:
three marks forming a complete standard line. -/
def topRowO : Board :=
  mkBoard (some Player.O) (some Player.O) (some Player.O)
    none none none none none none

namespace ServerM

/-- The part of `std::net::SocketAddr` the server inspects: whether the
peer address is a loopback address (`addr.ip().is_loopback()`), and its
`Display` form (used in chat labels and disconnect notices). -/
structure Addr where
  isLoopback : Bool
  shown : String
deriving DecidableEq

/-- `Group` from src/server.rs: the per-connection role. -/
inductive Group where
  | host : Option Player → Group
  | observer : Group
  | player : Player → Group
deriving DecidableEq

/-- `ConnectionContext::is_host` (src/server.rs). -/
def Group.isHost : Group → Bool
  | Group.host _ => true
  | _ => false

/-- `ConnectionContext` from src/server.rs.  The `abort_handle` field is a
task-cancellation capability with no influence on any modelled transition
and is omitted. -/
structure ConnectionContext where
  group : Group
  addr : Addr
deriving DecidableEq

/-- `ConnectionContext::player` (src/server.rs). -/
def ConnectionContext.player (cx : ConnectionContext) : Option Player :=
  match cx.group with
  | Group.observer => none
  | Group.host p => p
  | Group.player p => some p

/-- `Request` from src/message.rs.  `PlayTurn(u8)` carries a raw byte read
from the wire; it is modelled as `Nat`. -/
inductive Request where
  | joinMatch : Option Player → Request
  | getGameInfo : Request
  | chat : String → Request
  | playTurn : Nat → Request
  | disconnect : Request
deriving DecidableEq

/-- `Response` from src/message.rs.  The game snapshots carried by
`GameInfo`/`TurnDone` are in-progress games. -/
inductive Response where
  | ack : Response
  | gameInfo : GameM.Game → Response
  | joined : Option Player → Response
  | turnDone : GameM.Game → Response
  | gameConcluded : Conclusion → Response
deriving DecidableEq

/-- `Error` from src/message.rs (named `ErrResponse` here to avoid clashing
with library names). -/
inductive ErrResponse where
  | waitingForHost : ErrResponse
  | invalidTile : ErrResponse
  | notYourTurn : ErrResponse
  | notAllowed : ErrResponse
  | matchInProgress : ErrResponse
  | gameConcluded : Conclusion → ErrResponse
  | invalidParam : String → ErrResponse
  | invalidMessage : String → ErrResponse
  | serverError : String → ErrResponse
deriving DecidableEq

/-- `Notification` from src/message.rs: `Chat { from, msg }` and
`ServerInfo`. -/
inductive Notification where
  | chat : String → String → Notification
  | serverInfo : String → Notification
deriving DecidableEq

/-- `ServerState` from src/server.rs. -/
inductive ServerState where
  | waitingForHost : ServerState
  | waitingForPlayers : ServerState
  | playing : GameM.Game → ServerState
deriving DecidableEq

/-- The state owned by the `Server` actor (src/server.rs): the session
phase, the connection roster (`HashMap<ConnectionId, ConnectionContext>`,
modelled as an association list with first-match lookup), and the accept
counter.  The channels and the `JoinSet` carry no game/roster state and are
represented by the explicit inputs and outputs of the handlers below. -/
structure Server where
  state : ServerState
  contexts : List (Nat × ConnectionContext)
  nextConnId : Nat
deriving DecidableEq

/-- `Server::default()` (src/server.rs): empty roster, id counter 0, state
`WaitingForHost`. -/
def initServer : Server :=
  { state := ServerState.waitingForHost, contexts := [], nextConnId := 0 }

/-- Roster lookup (`self.contexts.entry(conn_id)` / `get`). -/
def findCtx (ctxs : List (Nat × ConnectionContext)) (id : Nat) :
    Option ConnectionContext :=
  match ctxs with
  | [] => none
  | (i, cx) :: rest => if i = id then some cx else findCtx rest id

/-- In-place update of one roster entry (`cx.into_mut().group = ...` and
`entry(conn_id).and_modify(|cx| cx.group = new_group)`). -/
def setGroup : List (Nat × ConnectionContext) → Nat → Group →
    List (Nat × ConnectionContext)
  | [], _, _ => []
  | (i, cx) :: rest, id, g =>
      if i = id then (i, { cx with group := g }) :: setGroup rest id g
      else (i, cx) :: setGroup rest id g

/-- Roster removal (`self.contexts.remove(&conn_id)`). -/
def removeCtx (ctxs : List (Nat × ConnectionContext)) (id : Nat) :
    List (Nat × ConnectionContext) :=
  ctxs.filter (fun p => ! (p.1 == id))

/-- The `already_joined` scan of `handle_request` (src/server.rs lines
228-232): the first roster entry whose group carries a color, i.e. a
`Host(Some(p))` or a `Player(p)`. -/
def alreadyJoined (ctxs : List (Nat × ConnectionContext)) : Option Player :=
  ctxs.findSome? (fun p =>
    match p.2.group with
    | Group.host (some o) => some o
    | Group.player o => some o
    | _ => none)

/-- The role-derived chat label of the `Chat` arm of `handle_request`. -/
def chatLabel (cx : ConnectionContext) : String :=
  match cx.group with
  | Group.observer => cx.addr.shown
  | Group.player p => p.show
  | Group.host none => "host"
  | Group.host (some p) => p.show ++ " (host)"

instance {ε α : Type} [DecidableEq ε] [DecidableEq α] : DecidableEq (Except ε α) :=
  fun a b =>
    match a, b with
    | Except.ok x, Except.ok y =>
      match decEq x y with
      | isTrue h => isTrue (by rw [h])
      | isFalse h => isFalse (fun he => h (by cases he; rfl))
    | Except.error x, Except.error y =>
      match decEq x y with
      | isTrue h => isTrue (by rw [h])
      | isFalse h => isFalse (fun he => h (by cases he; rfl))
    | Except.ok _, Except.error _ => isFalse (fun he => Except.noConfusion he)
    | Except.error _, Except.ok _ => isFalse (fun he => Except.noConfusion he)

/-- Outcome of one `handle_request` call: the request is silently dropped
(unknown connection id — the reply slot is never filled), or a reply is sent
through the reply slot together with zero or more broadcast notifications,
or execution reaches the `todo!()` macro and the actor task panics. -/
inductive HandleResult where
  | dropped : HandleResult
  | replied : Server → Except ErrResponse Response → List Notification → HandleResult
  | panicked : HandleResult
deriving DecidableEq

/-- The `(JoinMatch(req_join_as), ServerState::WaitingForPlayers)` arm of
`handle_request` for a requester whose group is `Observer` or `Host(None)`
(src/server.rs lines 226-255).  `wasObserver` records which of the two
or-patterns matched, deciding whether the new group is `Player(join_as)` or
`Host(Some(join_as))`. -/
def joinAsPlayer (s : Server) (connId : Nat) (wasObserver : Bool)
    (reqJoinAs : Option Player) : HandleResult :=
  let already := alreadyJoined s.contexts
  let joinAs :=
    match reqJoinAs, already with
    | none, none => Player.O
    | some r, none => r
    | _, some a => a.not
  let newGroup := if wasObserver then Group.player joinAs else Group.host (some joinAs)
  let s1 := { s with contexts := setGroup s.contexts connId newGroup }
  let s2 :=
    if already.isSome then
      { s1 with state := ServerState.playing (GameM.Game.new Player.O) }
    else s1
  HandleResult.replied s2 (Except.ok (Response.joined (some joinAs))) []

/-- `Server::handle_request` from src/server.rs (lines 193-271), arm for
arm in source order.  The guard failure of the
`(JoinMatch, WaitingForHost) if is_host` arm falls through to the
`(_, WaitingForHost)` arm; `(PlayTurn, Playing)` is the literal `todo!()`.
The `broadcast.send(..).unwrap()` and `rsp.send(r).unwrap()` failure modes
concern dropped channel endpoints, not the roster or game state, and are
modelled as successful delivery. -/
def handleRequest (s : Server) (connId : Nat) (req : Request) : HandleResult :=
  match findCtx s.contexts connId with
  | none => HandleResult.dropped
  | some cx =>
    match req, s.state with
    | Request.chat msg, _ =>
        HandleResult.replied s (Except.ok Response.ack) [Notification.chat (chatLabel cx) msg]
    | Request.joinMatch player, ServerState.waitingForHost =>
        if cx.group.isHost then
          HandleResult.replied
            { s with state := ServerState.waitingForPlayers,
                     contexts := setGroup s.contexts connId (Group.host player) }
            (Except.ok (Response.joined player)) []
        else
          HandleResult.replied s (Except.error ErrResponse.waitingForHost) []
    | Request.joinMatch reqJoinAs, ServerState.waitingForPlayers =>
        match cx.group with
        | Group.observer => joinAsPlayer s connId true reqJoinAs
        | Group.host none => joinAsPlayer s connId false reqJoinAs
        | Group.player _ =>
            HandleResult.replied s (Except.error (ErrResponse.invalidParam "already joined")) []
        | Group.host (some _) =>
            HandleResult.replied s (Except.error (ErrResponse.invalidParam "already joined")) []
    | Request.getGameInfo, ServerState.playing g =>
        HandleResult.replied s (Except.ok (Response.gameInfo g)) []
    | Request.playTurn _, ServerState.playing _ => HandleResult.panicked
    | Request.playTurn _, _ =>
        HandleResult.replied s (Except.error ErrResponse.notAllowed) []
    | Request.getGameInfo, _ =>
        HandleResult.replied s (Except.error ErrResponse.notAllowed) []
    | Request.joinMatch _, ServerState.playing _ =>
        HandleResult.replied s (Except.error ErrResponse.matchInProgress) []
    | Request.disconnect, ServerState.waitingForHost =>
        HandleResult.replied s (Except.error ErrResponse.waitingForHost) []
    | Request.disconnect, _ =>
        HandleResult.replied s (Except.error (ErrResponse.invalidMessage "not implemented")) []

/-- `Server::handle_new_connection` from src/server.rs (lines 285-323):
allocate the next connection id, spawn the connection task (outside the
embedding), and register a context whose group is `Host(None)` exactly when
the peer address is a loopback address, `Observer` otherwise. -/
def handleNewConnection (s : Server) (addr : Addr) : Server :=
  let connId := s.nextConnId
  let group := if addr.isLoopback then Group.host none else Group.observer
  { s with nextConnId := connId + 1,
           contexts := (connId, { group := group, addr := addr }) :: s.contexts }

/-- `Server::handle_disconnect` from src/server.rs: remove the context and
broadcast a `ServerInfo` departure notice; removing an unknown id panics
(`expect`), modelled as `none`. -/
def handleDisconnect (s : Server) (connId : Nat) : Option (Server × Notification) :=
  match findCtx s.contexts connId with
  | none => none
  | some cx =>
      some ({ s with contexts := removeCtx s.contexts connId },
        Notification.serverInfo (cx.addr.shown ++ " disconnected"))

/-- The three inbound event kinds the actor loop of `Server::run` drains:
accepted sockets, contexted requests, and task completions. -/
inductive Action where
  | accept : Addr → Action
  | request : Nat → Request → Action
  | disconnect : Nat → Action

/-- One actor-loop iteration on one event.  `none` means the actor panicked
(the `todo!()` arm, or a double removal). -/
def step (s : Server) : Action → Option Server
  | Action.accept a => some (handleNewConnection s a)
  | Action.request id req =>
      match handleRequest s id req with
      | HandleResult.dropped => some s
      | HandleResult.replied s2 _ _ => some s2
      | HandleResult.panicked => none
  | Action.disconnect id => (handleDisconnect s id).map (fun p => p.1)

/-- Server states reachable from `Server::default()` by actor-loop events. -/
inductive Reachable : Server → Prop
  | init : Reachable initServer
  | step {s s2 : Server} {a : Action} : Reachable s → step s a = some s2 → Reachable s2

/-- Number of roster entries holding a `Host` role. -/
def hostCount (s : Server) : Nat :=
  s.contexts.countP (fun p => p.2.group.isHost)

/-- A loopback peer address (the listener binds 127.0.0.1, so every real
client of the current build is loopback). -/
def loopbackAddr : Addr := { isLoopback := true, shown := "127.0.0.1:50000" }

/-- A second, distinct loopback peer address. -/
def loopbackAddr2 : Addr := { isLoopback := true, shown := "127.0.0.1:50001" }

/-- A non-loopback peer address. -/
def remoteAddr : Addr := { isLoopback := false, shown := "10.0.0.2:50002" }

/-- Server after accepting one loopback connection (id 0): still
`WaitingForHost`, connection 0 registered as `Host(None)`. -/
def sOneHost : Server :=
  { state := ServerState.waitingForHost,
    contexts := [(0, { group := Group.host none, addr := loopbackAddr })],
    nextConnId := 1 }

/-- Server after accepting two loopback connections: both contexts hold a
`Host` role. -/
def sTwoHosts : Server :=
  { state := ServerState.waitingForHost,
    contexts := [(1, { group := Group.host none, addr := loopbackAddr2 }),
                 (0, { group := Group.host none, addr := loopbackAddr })],
    nextConnId := 2 }

/-- Server after accepting one non-loopback connection (id 0): connection 0
registered as `Observer`, still `WaitingForHost`. -/
def sOneObserver : Server :=
  { state := ServerState.waitingForHost,
    contexts := [(0, { group := Group.observer, addr := remoteAddr })],
    nextConnId := 1 }

/-- Scenario-4 state: loopback host (id 0) has claimed `X`, a remote
observer (id 1) is registered, session is `WaitingForPlayers`. -/
def sHostJoined : Server :=
  { state := ServerState.waitingForPlayers,
    contexts := [(1, { group := Group.observer, addr := remoteAddr }),
                 (0, { group := Group.host (some Player.X), addr := loopbackAddr })],
    nextConnId := 2 }

/-- Scenario-4 result: the remote connection joined as `O`, session is
`Playing` with a fresh game and `O` to move. -/
def sPlaying : Server :=
  { state := ServerState.playing (GameM.Game.new Player.O),
    contexts := [(1, { group := Group.player Player.O, addr := remoteAddr }),
                 (0, { group := Group.host (some Player.X), addr := loopbackAddr })],
    nextConnId := 2 }

/-- The conclusion of the C3 claim at one request: handling
`JoinMatch(reqColor)` from connection `id` (context `cx`) replies
`Joined(Some c)` for an assigned color `c` that is the requested color or
the `O` default when nobody joined yet, and the opposite of the joined
color otherwise; the requester becomes `Player(c)` (or `Host(Some c)` for a
colorless host), and the session moves to `Playing` with a fresh game whose
first turn is `O` exactly when this made a second distinct player. -/
def joinOutcome (s : Server) (id : Nat) (cx : ConnectionContext)
    (reqColor : Option Player) : Prop :=
  ∃ (c : Player) (s2 : Server),
    handleRequest s id (Request.joinMatch reqColor) =
      HandleResult.replied s2 (Except.ok (Response.joined (some c))) [] ∧
    (alreadyJoined s.contexts = none → c = reqColor.getD Player.O) ∧
    (∀ a, alreadyJoined s.contexts = some a → c = a.not) ∧
    s2.state = (if (alreadyJoined s.contexts).isSome then
        ServerState.playing (GameM.Game.new Player.O)
      else ServerState.waitingForPlayers) ∧
    findCtx s2.contexts id = some { cx with
      group := if cx.group = Group.observer then Group.player c else Group.host (some c) } ∧
    s2.contexts = setGroup s.contexts id
      (if cx.group = Group.observer then Group.player c else Group.host (some c))

end ServerM

namespace ConnM

/-- Classification of a failed decode, mirroring how `Connection::recv`
(src/connection.rs lines 42-52) buckets `ron` error codes: `Eof` and
`ExpectedDifferentLength` mean the buffer does not yet hold a complete
message (`incomplete`); every other code is malformed content, carrying the
text sent back in the `InvalidMessage` response. -/
inductive DecodeE where
  | incomplete : DecodeE
  | malformed : String → DecodeE
deriving DecidableEq

/-- Result of `ron::de::from_bytes` on the current buffer contents. -/
inductive DecodeRes (T : Type) where
  | ok : T → DecodeRes T
  | fail : DecodeE → DecodeRes T
deriving DecidableEq

/-- Observable outcome of one `Connection::recv` call: the returned
`anyhow::Result<Option<T>>` (`error` carries the bail message), the reads
not yet consumed from the stream (available to later calls), and the
payloads of the `InvalidMessage` error responses sent to the peer. -/
structure RecvOut (T : Type) where
  result : Except String (Option T)
  rest : List (List Char)
  sent : List String
deriving DecidableEq

/-- The `loop` of `Connection::recv` (src/connection.rs lines 39-61),
parameterized by the decoder: decode the buffer; on success return the
message; on an incomplete-data failure keep the buffer, on a malformed
failure send `InvalidMessage` and clear the buffer; then read the next
chunk, and at end-of-stream return clean EOF on an empty buffer or bail
with a peer-reset error on a non-empty one.  The stream is the list of
chunks successive `read_buf` calls deliver; end-of-stream (`read_buf`
returning 0) is its exhaustion. -/
def recvLoop (decode : List Char → DecodeRes T) :
    List Char → List (List Char) → RecvOut T
  | buffer, reads =>
    match decode buffer with
    | DecodeRes.ok m => { result := Except.ok (some m), rest := reads, sent := [] }
    | DecodeRes.fail e =>
      let cleared : List Char × List String :=
        match e with
        | DecodeE.incomplete => (buffer, [])
        | DecodeE.malformed msg => ([], [msg])
      match reads with
      | [] =>
        if cleared.1.isEmpty then
          { result := Except.ok none, rest := [], sent := cleared.2 }
        else
          { result := Except.error "Connection reset by peer", rest := [], sent := cleared.2 }
      | chunk :: restReads =>
        let out := recvLoop decode (cleared.1 ++ chunk) restReads
        { out with sent := cleared.2 ++ out.sent }

/-- `Connection::recv`: the internal buffer is cleared on entry
(src/connection.rs line 38), then the read/decode loop runs. -/
def recv (decode : List Char → DecodeRes T) (reads : List (List Char)) : RecvOut T :=
  recvLoop decode [] reads

/-- Decoder for a toy message grammar — a message is `(body)` with no
parenthesis in the body — exhibiting the contract of `ron::de::from_bytes`
(a third-party crate, modelled here from its documented behavior): the
whole buffer must hold exactly one value; an empty or truncated buffer
fails with the `Eof`-class code (incomplete); a complete value followed by
anything but trailing whitespace fails with the `TrailingCharacters` code,
which is a malformed-content code in the classification of `recv`; input
that cannot start a value is malformed. -/
def toyDecode (buf : List Char) : DecodeRes String :=
  match buf with
  | [] => DecodeRes.fail DecodeE.incomplete
  | '(' :: rest =>
    match rest.findIdx? (fun c => c == ')') with
    | none => DecodeRes.fail DecodeE.incomplete
    | some i =>
      let after := rest.drop (i + 1)
      if after.all (fun c => c == '\n' || c == ' ') then
        DecodeRes.ok (String.mk (rest.take i))
      else DecodeRes.fail (DecodeE.malformed "trailing characters")
  | _ => DecodeRes.fail (DecodeE.malformed "expected start of value")

/-- First read of the split-delivery scenario: all of the first message and
a prefix of the second. -/
def read1 : List Char := "(hello)\n(wor".toList

/-- Second read of the split-delivery scenario: the remainder of the second
message. -/
def read2 : List Char := "ld)\n".toList

end ConnM

/-- The nine `TileId` constants of src/board.rs. -/
def tileConstants : List TileId :=
  [TileId.A1, TileId.B1, TileId.C1, TileId.A2, TileId.B2, TileId.C2,
   TileId.A3, TileId.B3, TileId.C3]

/-- The eighteen strings accepted by `FromStr for TileId`: the nine
coordinates in lower and in upper case. -/
def validTileStrings : List String :=
  ["a1", "A1", "a2", "A2", "a3", "A3", "b1", "B1", "b2", "B2", "b3", "B3",
   "c1", "C1", "c2", "C2", "c3", "C3"]

/-- An in-progress game over `topRowO` with `X` to move: its A1 tile is
occupied. -/
def gameTopRowX : GameM.Game := { board := topRowO, turn := Player.X }

/-- A fully marked board with no three-in-a-row (ranks bottom-up:
O X O / O X X / X O O). -/
def fullDrawBoard : Board :=
  mkBoard (some Player.O) (some Player.X) (some Player.O)
    (some Player.O) (some Player.X) (some Player.X)
    (some Player.X) (some Player.O) (some Player.O)

namespace ServerM

theorem findCtx_setGroup (l : List (Nat × ConnectionContext)) (id : Nat) (g : Group) :
    findCtx (setGroup l id g) id = (findCtx l id).map (fun cx => { cx with group := g }) := by
  induction l with
  | nil => rfl
  | cons p rest ih =>
    obtain ⟨i, cx2⟩ := p
    by_cases h : i = id
    · simp [setGroup, findCtx, h]
    · simp [setGroup, findCtx, h, ih]

end ServerM

/-- Unfolding of the src/game.rs conclusion check into its named parts,
by definitional equality. -/
theorem hasGameConcluded_eq (b : Board) :
    GameM.hasGameConcluded b = if b.markCount < 3 then none else winChain b := rfl

/-- Unfolding of the src/main.rs duplicate, identical to the src/game.rs
version except for the early-out threshold. -/
theorem mainHasGameConcluded_eq (b : Board) :
    MainM.hasGameConcluded b = if b.markCount ≤ 3 then none else winChain b := rfl

theorem tryWin_win_elim {anchor : Option Player} {cond : Prop} [Decidable cond]
    {rest : Option Conclusion} {p : Player}
    (h : tryWin anchor cond rest = some (Conclusion.win p)) :
    (anchor = some p ∧ cond) ∨ rest = some (Conclusion.win p) := by
  rcases anchor with _ | q
  · simp only [tryWin] at h
    exact Or.inr h
  · simp only [tryWin] at h
    by_cases hc : cond
    · rw [if_pos hc] at h
      cases h
      exact Or.inl ⟨rfl, hc⟩
    · rw [if_neg hc] at h
      exact Or.inr h

theorem tryWin_draw_elim {anchor : Option Player} {cond : Prop} [Decidable cond]
    {rest : Option Conclusion}
    (h : tryWin anchor cond rest = some Conclusion.draw) : rest = some Conclusion.draw := by
  rcases anchor with _ | q
  · simpa only [tryWin] using h
  · simp only [tryWin] at h
    by_cases hc : cond
    · rw [if_pos hc] at h
      cases h
    · rwa [if_neg hc] at h

theorem tryWin_none_elim {anchor : Option Player} {cond : Prop} [Decidable cond]
    {rest : Option Conclusion}
    (h : tryWin anchor cond rest = none) : rest = none := by
  rcases anchor with _ | q
  · simpa only [tryWin] using h
  · simp only [tryWin] at h
    by_cases hc : cond
    · rw [if_pos hc] at h
      cases h
    · rwa [if_neg hc] at h

theorem tryWin_skip {anchor : Option Player} {cond : Prop} [Decidable cond]
    {rest : Option Conclusion}
    (h : anchor = none ∨ ¬ cond) : tryWin anchor cond rest = rest := by
  rcases anchor with _ | q
  · simp only [tryWin]
  · simp only [tryWin]
    rcases h with h | h
    · cases h
    · rw [if_neg h]

theorem tryWin_fire {anchor : Option Player} {cond : Prop} [Decidable cond]
    {rest : Option Conclusion} {q : Player}
    (h : anchor = some q) (hc : cond) :
    tryWin anchor cond rest = some (Conclusion.win q) := by
  subst h
  simp only [tryWin]
  rw [if_pos hc]

theorem tryWin_lift {anchor : Option Player} {cond : Prop} [Decidable cond]
    {rest : Option Conclusion}
    (h : ∃ q, rest = some (Conclusion.win q)) :
    ∃ q, tryWin anchor cond rest = some (Conclusion.win q) := by
  rcases anchor with _ | q2
  · simpa only [tryWin] using h
  · by_cases hc : cond
    · exact ⟨q2, tryWin_fire rfl hc⟩
    · rw [tryWin_skip (Or.inr hc)]
      exact h

/-- A satisfied A1-anchored condition with an occupied anchor is a win on a
standard line (column A, rank-1 row, or the A1-B2-C3 diagonal). -/
theorem lineWin_of_a1 (b : Board) (q : Player) (h : b.get TileId.A1 = some q)
    (hc : condA1 b) : lineWin b q := by
  rcases hc with ⟨h1, h2⟩ | ⟨h1, h2⟩ | ⟨h1, h2⟩
  · refine ⟨[0, 3, 6], by simp [standardLines], ?_⟩
    intro i hi
    simp at hi
    rcases hi with rfl | rfl | rfl
    · exact h
    · exact h2.symm.trans h
    · exact h1.symm.trans h
  · refine ⟨[0, 1, 2], by simp [standardLines], ?_⟩
    intro i hi
    simp at hi
    rcases hi with rfl | rfl | rfl
    · exact h
    · exact h2.symm.trans h
    · exact h1.symm.trans h
  · refine ⟨[0, 4, 8], by simp [standardLines], ?_⟩
    intro i hi
    simp at hi
    rcases hi with rfl | rfl | rfl
    · exact h
    · exact h2.symm.trans h
    · exact h1.symm.trans h

/-- A satisfied C1-anchored condition with an occupied anchor is a win on a
standard line (column C or the C1-B2-A3 diagonal). -/
theorem lineWin_of_c1 (b : Board) (q : Player) (h : b.get TileId.C1 = some q)
    (hc : condC1 b) : lineWin b q := by
  rcases hc with ⟨h1, h2⟩ | ⟨h1, h2⟩
  · refine ⟨[2, 5, 8], by simp [standardLines], ?_⟩
    intro i hi
    simp at hi
    rcases hi with rfl | rfl | rfl
    · exact h
    · exact h2.symm.trans h
    · exact h1.symm.trans h
  · refine ⟨[2, 4, 6], by simp [standardLines], ?_⟩
    intro i hi
    simp at hi
    rcases hi with rfl | rfl | rfl
    · exact h
    · exact h2.symm.trans h
    · exact h1.symm.trans h

/-- A satisfied B2-anchored condition with an occupied anchor is a win on a
standard line (rank-2 row or column B). -/
theorem lineWin_of_b2 (b : Board) (q : Player) (h : b.get TileId.B2 = some q)
    (hc : condB2 b) : lineWin b q := by
  rcases hc with ⟨h1, h2⟩ | ⟨h1, h2⟩
  · refine ⟨[3, 4, 5], by simp [standardLines], ?_⟩
    intro i hi
    simp at hi
    rcases hi with rfl | rfl | rfl
    · exact h1.symm.trans h
    · exact h
    · exact h2.symm.trans h
  · refine ⟨[1, 4, 7], by simp [standardLines], ?_⟩
    intro i hi
    simp at hi
    rcases hi with rfl | rfl | rfl
    · exact h1.symm.trans h
    · exact h
    · exact h2.symm.trans h

/-- A satisfied A3-anchored condition with an occupied anchor is a win on
the rank-3 row. -/
theorem lineWin_of_a3 (b : Board) (q : Player) (h : b.get TileId.A3 = some q)
    (hc : condA3 b) : lineWin b q := by
  obtain ⟨h1, h2⟩ := hc
  refine ⟨[6, 7, 8], by simp [standardLines], ?_⟩
  intro i hi
  simp at hi
  rcases hi with rfl | rfl | rfl
  · exact h
  · exact h2.symm.trans (h1.symm.trans h)
  · exact h1.symm.trans h

/-- Completeness of the anchored checks: any win on a standard line makes
the chain return a `Win`. -/
theorem winChain_wins (b : Board) (p : Player) (hw : lineWin b p) :
    ∃ q, winChain b = some (Conclusion.win q) := by
  obtain ⟨l, hl, hall⟩ := hw
  unfold winChain
  fin_cases hl
  · have e0 := hall 0 (by simp)
    have e1 := hall 1 (by simp)
    have e2 := hall 2 (by simp)
    exact ⟨p, tryWin_fire e0 (Or.inr (Or.inl ⟨e0.trans e2.symm, e0.trans e1.symm⟩))⟩
  · have e3 := hall 3 (by simp)
    have e4 := hall 4 (by simp)
    have e5 := hall 5 (by simp)
    exact tryWin_lift (tryWin_lift
      ⟨p, tryWin_fire e4 (Or.inl ⟨e4.trans e3.symm, e4.trans e5.symm⟩)⟩)
  · have e6 := hall 6 (by simp)
    have e7 := hall 7 (by simp)
    have e8 := hall 8 (by simp)
    exact tryWin_lift (tryWin_lift (tryWin_lift
      ⟨p, tryWin_fire e6 ⟨e6.trans e8.symm, e8.trans e7.symm⟩⟩))
  · have e0 := hall 0 (by simp)
    have e3 := hall 3 (by simp)
    have e6 := hall 6 (by simp)
    exact ⟨p, tryWin_fire e0 (Or.inl ⟨e0.trans e6.symm, e0.trans e3.symm⟩)⟩
  · have e1 := hall 1 (by simp)
    have e4 := hall 4 (by simp)
    have e7 := hall 7 (by simp)
    exact tryWin_lift (tryWin_lift
      ⟨p, tryWin_fire e4 (Or.inr ⟨e4.trans e1.symm, e4.trans e7.symm⟩)⟩)
  · have e2 := hall 2 (by simp)
    have e5 := hall 5 (by simp)
    have e8 := hall 8 (by simp)
    exact tryWin_lift ⟨p, tryWin_fire e2 (Or.inl ⟨e2.trans e8.symm, e2.trans e5.symm⟩)⟩
  · have e0 := hall 0 (by simp)
    have e4 := hall 4 (by simp)
    have e8 := hall 8 (by simp)
    exact ⟨p, tryWin_fire e0 (Or.inr (Or.inr ⟨e0.trans e8.symm, e0.trans e4.symm⟩))⟩
  · have e2 := hall 2 (by simp)
    have e4 := hall 4 (by simp)
    have e6 := hall 6 (by simp)
    exact tryWin_lift ⟨p, tryWin_fire e2 (Or.inr ⟨e2.trans e6.symm, e2.trans e4.symm⟩)⟩

/-- When no standard line is won, every anchored check falls through and
the chain reduces to the draw test. -/
theorem winChain_skips (b : Board) (hnw : ∀ p, ¬ lineWin b p) :
    winChain b = winRest b := by
  have h1 : b.get TileId.A1 = none ∨ ¬ condA1 b := by
    rcases hA : b.get TileId.A1 with _ | q
    · exact Or.inl rfl
    · exact Or.inr (fun hc => hnw q (lineWin_of_a1 b q hA hc))
  have h2 : b.get TileId.C1 = none ∨ ¬ condC1 b := by
    rcases hA : b.get TileId.C1 with _ | q
    · exact Or.inl rfl
    · exact Or.inr (fun hc => hnw q (lineWin_of_c1 b q hA hc))
  have h3 : b.get TileId.B2 = none ∨ ¬ condB2 b := by
    rcases hA : b.get TileId.B2 with _ | q
    · exact Or.inl rfl
    · exact Or.inr (fun hc => hnw q (lineWin_of_b2 b q hA hc))
  have h4 : b.get TileId.A3 = none ∨ ¬ condA3 b := by
    rcases hA : b.get TileId.A3 with _ | q
    · exact Or.inl rfl
    · exact Or.inr (fun hc => hnw q (lineWin_of_a3 b q hA hc))
  unfold winChain
  rw [tryWin_skip h1, tryWin_skip h2, tryWin_skip h3, tryWin_skip h4]

/-- Full characterization of the src/game.rs conclusion check against the
8-standard-lines reading of the spec, for every board: `None` below three
marks; from three marks on, a returned `Win(p)` always exhibits a complete
line of `p`, some `Win` is returned exactly when some line is complete,
`Draw` is returned exactly when no line is complete at nine marks, and
`None` exactly when no line is complete below nine marks. -/
theorem hasGameConcluded_correct (b : Board) :
    (b.markCount < 3 → GameM.hasGameConcluded b = none) ∧
    (3 ≤ b.markCount →
      ((∀ p, GameM.hasGameConcluded b = some (Conclusion.win p) → lineWin b p) ∧
       ((∃ p, lineWin b p) → ∃ q, GameM.hasGameConcluded b = some (Conclusion.win q)) ∧
       (GameM.hasGameConcluded b = some Conclusion.draw ↔
         (∀ p, ¬ lineWin b p) ∧ b.markCount = 9) ∧
       (GameM.hasGameConcluded b = none ↔
         (∀ p, ¬ lineWin b p) ∧ b.markCount ≠ 9))) := by
  constructor
  · intro h
    rw [hasGameConcluded_eq, if_pos h]
  · intro h3
    have h3n : ¬ b.markCount < 3 := by omega
    have hcomplete : (∃ p, lineWin b p) →
        ∃ q, GameM.hasGameConcluded b = some (Conclusion.win q) := by
      rintro ⟨p, hw⟩
      rcases winChain_wins b p hw with ⟨q, hq⟩
      exact ⟨q, by rw [hasGameConcluded_eq, if_neg h3n]; exact hq⟩
    refine ⟨?_, hcomplete, ?_, ?_⟩
    · intro p hp
      rw [hasGameConcluded_eq, if_neg h3n] at hp
      unfold winChain at hp
      rcases tryWin_win_elim hp with ⟨ha, hc⟩ | hp
      · exact lineWin_of_a1 b p ha hc
      rcases tryWin_win_elim hp with ⟨ha, hc⟩ | hp
      · exact lineWin_of_c1 b p ha hc
      rcases tryWin_win_elim hp with ⟨ha, hc⟩ | hp
      · exact lineWin_of_b2 b p ha hc
      rcases tryWin_win_elim hp with ⟨ha, hc⟩ | hp
      · exact lineWin_of_a3 b p ha hc
      · unfold winRest at hp
        by_cases h9 : b.markCount = 9
        · rw [if_pos h9] at hp
          cases hp
        · rw [if_neg h9] at hp
          cases hp
    · constructor
      · intro hd
        have hnw : ∀ p, ¬ lineWin b p := by
          intro p hw
          rcases hcomplete ⟨p, hw⟩ with ⟨q, hq⟩
          rw [hd] at hq
          cases hq
        refine ⟨hnw, ?_⟩
        rw [hasGameConcluded_eq, if_neg h3n] at hd
        unfold winChain at hd
        have hrest := tryWin_draw_elim (tryWin_draw_elim (tryWin_draw_elim (tryWin_draw_elim hd)))
        unfold winRest at hrest
        by_cases h9 : b.markCount = 9
        · exact h9
        · rw [if_neg h9] at hrest
          cases hrest
      · rintro ⟨hnw, h9⟩
        rw [hasGameConcluded_eq, if_neg h3n, winChain_skips b hnw]
        unfold winRest
        rw [if_pos h9]
    · constructor
      · intro hd
        have hnw : ∀ p, ¬ lineWin b p := by
          intro p hw
          rcases hcomplete ⟨p, hw⟩ with ⟨q, hq⟩
          rw [hd] at hq
          cases hq
        refine ⟨hnw, ?_⟩
        rw [hasGameConcluded_eq, if_neg h3n] at hd
        unfold winChain at hd
        have hrest := tryWin_none_elim (tryWin_none_elim (tryWin_none_elim (tryWin_none_elim hd)))
        unfold winRest at hrest
        by_cases h9 : b.markCount = 9
        · rw [if_pos h9] at hrest
          cases hrest
        · exact h9
      · rintro ⟨hnw, h9⟩
        rw [hasGameConcluded_eq, if_neg h3n, winChain_skips b hnw]
        unfold winRest
        rw [if_neg h9]

/-- The two duplicated conclusion checks agree on every board whose mark
count is not exactly 3: the `<=` versus `<` threshold is their only
difference. -/
theorem main_eq_game_away_from_3 (b : Board) (h : b.markCount ≠ 3) :
    MainM.hasGameConcluded b = GameM.hasGameConcluded b := by
  rw [mainHasGameConcluded_eq, hasGameConcluded_eq]
  by_cases h3 : b.markCount < 3
  · rw [if_pos h3, if_pos (by omega)]
  · rw [if_neg h3, if_neg (by omega)]

/-- On every board with exactly three marks the src/main.rs duplicate
returns `None`, winning line or not. -/
theorem main_none_at_3 (b : Board) (h : b.markCount = 3) :
    MainM.hasGameConcluded b = none := by
  rw [mainHasGameConcluded_eq, if_pos (by omega)]

/-- Scenario 2 of the spec: a fully marked board with no three-in-a-row
concludes as a draw (and has no winning line). -/
theorem full_board_draw :
    GameM.hasGameConcluded fullDrawBoard = some Conclusion.draw ∧
    fullDrawBoard.markCount = 9 ∧ (∀ p, ¬ lineWin fullDrawBoard p) := by decide

/-- Scenario 5 of the spec: a `PlayTurn` request while SessionState is
WaitingForPlayers is rejected with `NotAllowed`. -/
theorem playTurn_rejected_waitingForPlayers :
    ∀ (s : ServerM.Server) (id : Nat) (cx : ServerM.ConnectionContext) (t : Nat),
    ServerM.findCtx s.contexts id = some cx →
    s.state = ServerM.ServerState.waitingForPlayers →
    ServerM.handleRequest s id (ServerM.Request.playTurn t) =
      ServerM.HandleResult.replied s
        (Except.error ServerM.ErrResponse.notAllowed) [] := by
  intro s id cx t hfind hstate
  simp [ServerM.handleRequest, hfind, hstate]

open ServerM ConnM

/-- C1: on the board whose rank-1 row A1, B1, C1 is fully marked by `O`
(exactly 3 marks, a complete standard line), the src/game.rs
`has_game_concluded` returns `Win(O)` as the claim states, but the
duplicate src/main.rs implementation — with its `mark_count <= 3` early
return in place of `mark_count < 3` — returns `None`, against the claim
and against the spec sentence it cites. -/
theorem c1_mark3_win_divergence :
    topRowO.markCount = 3 ∧ lineWin topRowO Player.O ∧
    GameM.hasGameConcluded topRowO = some (Conclusion.win Player.O) ∧
    MainM.hasGameConcluded topRowO = none := by decide

/-- C2: the state with a host playing `X`, a remote player playing `O` and
the session `Playing` is reachable from `Server::default()`, and there a
`PlayTurn` request from the registered host connection makes
`handle_request` reach the `todo!()` arm, i.e. the actor task panics
instead of replying `TurnDone` or a typed error. -/
theorem c2_playturn_todo_panics : Reachable sPlaying ∧
    (∀ t, handleRequest sPlaying 0 (Request.playTurn t) = HandleResult.panicked) ∧
    (∀ t, step sPlaying (Action.request 0 (Request.playTurn t)) = none) := by
  refine ⟨?_, fun t => rfl, fun t => rfl⟩
  have h1 : step initServer (Action.accept loopbackAddr) = some sOneHost := by decide
  have h2 : step sOneHost (Action.accept remoteAddr) = some
    { state := ServerState.waitingForHost,
      contexts := [(1, { group := Group.observer, addr := remoteAddr }),
                   (0, { group := Group.host none, addr := loopbackAddr })],
      nextConnId := 2 } := by decide
  have h3 : step
    { state := ServerState.waitingForHost,
      contexts := [(1, { group := Group.observer, addr := remoteAddr }),
                   (0, { group := Group.host none, addr := loopbackAddr })],
      nextConnId := 2 }
    (Action.request 0 (Request.joinMatch (some Player.X))) = some sHostJoined := by decide
  have h4 : step sHostJoined (Action.request 1 (Request.joinMatch none)) = some sPlaying := by
    decide
  exact Reachable.step (Reachable.step (Reachable.step (Reachable.step Reachable.init h1) h2) h3) h4

/-- C3: while SessionState is WaitingForPlayers, a JoinMatch from a
registered connection that is not yet a player (an observer or a colorless
host) is assigned `O` by default or its requested color when nobody has
joined, the opposite of the joined color regardless of the request when
somebody has, the session then moving to Playing with a fresh game whose
first turn is `O`; the reply is Joined(assigned color). -/
theorem c3_join_assigns_color : ∀ (s : Server) (id : Nat) (cx : ConnectionContext)
    (reqColor : Option Player),
    findCtx s.contexts id = some cx → s.state = ServerState.waitingForPlayers →
    (cx.group = Group.observer ∨ cx.group = Group.host none) →
    joinOutcome s id cx reqColor := by
  intro s id cx reqColor hfind hstate hgroup
  unfold joinOutcome
  rcases hA : alreadyJoined s.contexts with _ | a <;>
    rcases hgroup with hg | hg <;> rcases reqColor with _ | r
  · exact ⟨Player.O, { s with contexts := setGroup s.contexts id (Group.player Player.O) },
      by simp [handleRequest, hfind, hstate, hg, joinAsPlayer, hA],
      by simp, by simp, by simp [hA, hstate],
      by rw [findCtx_setGroup, hfind]; simp [hg],
      by simp [hg]⟩
  · exact ⟨r, { s with contexts := setGroup s.contexts id (Group.player r) },
      by simp [handleRequest, hfind, hstate, hg, joinAsPlayer, hA],
      by simp, by simp, by simp [hA, hstate],
      by rw [findCtx_setGroup, hfind]; simp [hg],
      by simp [hg]⟩
  · exact ⟨Player.O, { s with contexts := setGroup s.contexts id (Group.host (some Player.O)) },
      by simp [handleRequest, hfind, hstate, hg, joinAsPlayer, hA],
      by simp, by simp, by simp [hA, hstate],
      by rw [findCtx_setGroup, hfind]; simp [hg],
      by simp [hg]⟩
  · exact ⟨r, { s with contexts := setGroup s.contexts id (Group.host (some r)) },
      by simp [handleRequest, hfind, hstate, hg, joinAsPlayer, hA],
      by simp, by simp, by simp [hA, hstate],
      by rw [findCtx_setGroup, hfind]; simp [hg],
      by simp [hg]⟩
  · exact ⟨a.not,
      { s with
          state := ServerState.playing (GameM.Game.new Player.O),
          contexts := setGroup s.contexts id (Group.player a.not) },
      by simp [handleRequest, hfind, hstate, hg, joinAsPlayer, hA],
      by simp, by simp, by simp [hA],
      by rw [findCtx_setGroup, hfind]; simp [hg],
      by simp [hg]⟩
  · exact ⟨a.not,
      { s with
          state := ServerState.playing (GameM.Game.new Player.O),
          contexts := setGroup s.contexts id (Group.player a.not) },
      by simp [handleRequest, hfind, hstate, hg, joinAsPlayer, hA],
      by simp, by simp, by simp [hA],
      by rw [findCtx_setGroup, hfind]; simp [hg],
      by simp [hg]⟩
  · exact ⟨a.not,
      { s with
          state := ServerState.playing (GameM.Game.new Player.O),
          contexts := setGroup s.contexts id (Group.host (some a.not)) },
      by simp [handleRequest, hfind, hstate, hg, joinAsPlayer, hA],
      by simp, by simp, by simp [hA],
      by rw [findCtx_setGroup, hfind]; simp [hg],
      by simp [hg]⟩
  · exact ⟨a.not,
      { s with
          state := ServerState.playing (GameM.Game.new Player.O),
          contexts := setGroup s.contexts id (Group.host (some a.not)) },
      by simp [handleRequest, hfind, hstate, hg, joinAsPlayer, hA],
      by simp, by simp, by simp [hA],
      by rw [findCtx_setGroup, hfind]; simp [hg],
      by simp [hg]⟩

/-- C3 witness (Scenario 4): on the concrete state where the loopback host
has claimed `X`, the remote observer sends `JoinMatch(None)` and is
assigned `O`, with the session moving to Playing. -/
theorem c3_join_scenario4 :
    joinOutcome sHostJoined 1 { group := Group.observer, addr := remoteAddr } none :=
  c3_join_assigns_color sHostJoined 1 { group := Group.observer, addr := remoteAddr } none
    (by decide) rfl (Or.inl rfl)

/-- C4 counterexample: after two loopback accepts — both reachable actor
events from `Server::default()` — two registered connections hold a Host
role at once, so at most one Host is not an invariant. -/
theorem c4_two_hosts_reachable :
    Reachable sTwoHosts ∧ hostCount sTwoHosts = 2 ∧ ¬ hostCount sTwoHosts ≤ 1 := by
  refine ⟨?_, by decide, by decide⟩
  have h1 : step initServer (Action.accept loopbackAddr) = some sOneHost := by decide
  have h2 : step sOneHost (Action.accept loopbackAddr2) = some sTwoHosts := by decide
  exact Reachable.step (Reachable.step Reachable.init h1) h2

/-- C4 amended: at accept time `handle_new_connection` registers the fresh
connection with role `Host(None)` exactly when its address is loopback and
`Observer` otherwise (with the session phase untouched); uniqueness of the
Host role is not enforced. -/
theorem c4_loopback_roles : ∀ (s : Server) (a : Addr),
    findCtx (handleNewConnection s a).contexts s.nextConnId =
      some { group := if a.isLoopback then Group.host none else Group.observer, addr := a } ∧
    (handleNewConnection s a).state = s.state := by
  intro s a
  exact ⟨by simp [handleNewConnection, findCtx], rfl⟩

/-- C5 counterexample: in WaitingForHost a registered connection sending
`PlayTurn` is answered `NotAllowed`, not the `WaitingForHost` error the
claim requires. -/
theorem c5_playturn_not_waitingforhost :
    handleRequest sOneHost 0 (Request.playTurn 0) =
      HandleResult.replied sOneHost (Except.error ErrResponse.notAllowed) [] ∧
    ErrResponse.notAllowed ≠ ErrResponse.waitingForHost := by decide

/-- C5 amended: while SessionState is WaitingForHost, `Chat` is answered
`Ack` (with a broadcast), `JoinMatch` from a non-host connection and a
stray `Disconnect` are answered with the `WaitingForHost` error, but
`PlayTurn` and `GetGameInfo` are answered `NotAllowed` — their catch-all
arms precede the WaitingForHost arm in `handle_request`. -/
theorem c5_waiting_for_host_replies : ∀ (s : Server) (id : Nat) (cx : ConnectionContext),
    findCtx s.contexts id = some cx → s.state = ServerState.waitingForHost →
    (∀ msg, handleRequest s id (Request.chat msg) =
      HandleResult.replied s (Except.ok Response.ack) [Notification.chat (chatLabel cx) msg]) ∧
    (∀ p, cx.group.isHost = false → handleRequest s id (Request.joinMatch p) =
      HandleResult.replied s (Except.error ErrResponse.waitingForHost) []) ∧
    (∀ t, handleRequest s id (Request.playTurn t) =
      HandleResult.replied s (Except.error ErrResponse.notAllowed) []) ∧
    (handleRequest s id Request.getGameInfo =
      HandleResult.replied s (Except.error ErrResponse.notAllowed) []) ∧
    (handleRequest s id Request.disconnect =
      HandleResult.replied s (Except.error ErrResponse.waitingForHost) []) := by
  intro s id cx hfind hstate
  refine ⟨fun msg => ?_, fun p hp => ?_, fun t => ?_, ?_, ?_⟩ <;>
    simp [handleRequest, hfind, hstate]
  simp [hp]

/-- C5 witness: the amended behavior at a concrete WaitingForHost state
with one registered remote observer. -/
theorem c5_observer_instance :
    handleRequest sOneObserver 0 (Request.playTurn 3) =
      HandleResult.replied sOneObserver (Except.error ErrResponse.notAllowed) [] ∧
    handleRequest sOneObserver 0 (Request.joinMatch (some Player.X)) =
      HandleResult.replied sOneObserver (Except.error ErrResponse.waitingForHost) [] ∧
    handleRequest sOneObserver 0 Request.getGameInfo =
      HandleResult.replied sOneObserver (Except.error ErrResponse.notAllowed) [] :=
  ⟨(c5_waiting_for_host_replies sOneObserver 0 { group := Group.observer, addr := remoteAddr }
      (by decide) rfl).2.2.1 3,
   (c5_waiting_for_host_replies sOneObserver 0 { group := Group.observer, addr := remoteAddr }
      (by decide) rfl).2.1 (some Player.X) rfl,
   (c5_waiting_for_host_replies sOneObserver 0 { group := Group.observer, addr := remoteAddr }
      (by decide) rfl).2.2.2.1⟩

/-- C6 counterexample: in WaitingForHost the host sends `JoinMatch(None)`;
the reply is `Joined(None)` and the role stays `Host(None)` — no default
color is applied, against the claim that the role gains the default color
and the reply carries it. -/
theorem c6_join_none_no_default :
    handleRequest sOneHost 0 (Request.joinMatch none) =
      HandleResult.replied
        { state := ServerState.waitingForPlayers,
          contexts := [(0, { group := Group.host none, addr := loopbackAddr })],
          nextConnId := 1 }
        (Except.ok (Response.joined none)) [] ∧
    Response.joined none ≠ Response.joined (some Player.O) := by decide

/-- C6 amended: when SessionState is WaitingForHost and the Host sends
`JoinMatch(color)`, the Host role becomes `Host(color)` exactly as
requested — staying colorless when no color is given, no default applied —
SessionState moves to WaitingForPlayers, and the reply is `Joined(color)`,
echoing the request including `None`. -/
theorem c6_host_join_echoes_request : ∀ (s : Server) (id : Nat) (cx : ConnectionContext)
    (p : Option Player),
    findCtx s.contexts id = some cx → s.state = ServerState.waitingForHost →
    cx.group.isHost = true →
    handleRequest s id (Request.joinMatch p) =
      HandleResult.replied
        { s with state := ServerState.waitingForPlayers,
                 contexts := setGroup s.contexts id (Group.host p) }
        (Except.ok (Response.joined p)) [] := by
  intro s id cx p hfind hstate hhost
  simp [handleRequest, hfind, hstate, hhost]

/-- C6 witness: the host claims `X` at the concrete one-host state. -/
theorem c6_host_join_x :
    handleRequest sOneHost 0 (Request.joinMatch (some Player.X)) =
      HandleResult.replied
        { sOneHost with state := ServerState.waitingForPlayers,
                        contexts := setGroup sOneHost.contexts 0 (Group.host (some Player.X)) }
        (Except.ok (Response.joined (some Player.X))) [] :=
  c6_host_join_echoes_request sOneHost 0 { group := Group.host none, addr := loopbackAddr }
    (some Player.X) (by decide) rfl rfl

/-- C7: the split-delivery scenario on the toy grammar.  The two reads
together carry exactly two complete messages, each of which the decoder
accepts on its own; yet one `recv` call consumes both reads, sends two
`InvalidMessage` errors to the peer — the complete first message plus the
prefix of the second is a trailing-characters (malformed) decode failure,
not an incomplete-data one — discards everything, and returns clean EOF
with no message decoded at all. -/
theorem c7_split_read_drops_messages :
    ConnM.read1 ++ ConnM.read2 = "(hello)\n(world)\n".toList ∧
    toyDecode "(hello)\n".toList = DecodeRes.ok "hello" ∧
    toyDecode "(world)\n".toList = DecodeRes.ok "world" ∧
    recv toyDecode [ConnM.read1, ConnM.read2] =
      { result := Except.ok none, rest := [],
        sent := ["trailing characters", "expected start of value"] } ∧
    (recv toyDecode [ConnM.read1, ConnM.read2]).result ≠ Except.ok (some "hello") := by
  decide

/-- C8: for any decoder that reports an empty buffer as incomplete,
`recv` returns clean EOF (`None`) when the stream ends with an empty
buffer; ends in the peer-reset error when the stream ends with a non-empty
buffer that is still incomplete; and on a malformed buffer sends the
`InvalidMessage` text to the peer, discards the buffer, and keeps
receiving — decoding a following well-formed read successfully. -/
theorem c8_recv_eof_and_malformed : ∀ {T : Type} (decode : List Char → DecodeRes T)
    (c c1 c2 : List Char) (m : String) (t : T),
    decode [] = DecodeRes.fail DecodeE.incomplete →
    decode c = DecodeRes.fail DecodeE.incomplete → c ≠ [] →
    decode c1 = DecodeRes.fail (DecodeE.malformed m) →
    decode c2 = DecodeRes.ok t →
    recv decode [] = { result := Except.ok none, rest := [], sent := [] } ∧
    recv decode [c] =
      { result := Except.error "Connection reset by peer", rest := [], sent := [] } ∧
    recv decode [c1, c2] = { result := Except.ok (some t), rest := [], sent := [m] } := by
  intro T decode c c1 c2 m t h0 hc hne h1 h2
  refine ⟨?_, ?_, ?_⟩
  · simp [recv, recvLoop, h0]
  · simp [recv, recvLoop, h0, hc, List.isEmpty_iff, hne]
  · simp [recv, recvLoop, h0, h1, h2]

/-- C8 witness: the three behaviors at concrete inputs of the toy
decoder. -/
theorem c8_toy_instance :
    recv toyDecode [] = { result := Except.ok none, rest := [], sent := [] } ∧
    recv toyDecode ["(ab".toList] =
      { result := Except.error "Connection reset by peer", rest := [], sent := [] } ∧
    recv toyDecode ["xy".toList, "(hi)".toList] =
      { result := Except.ok (some "hi"), rest := [], sent := ["expected start of value"] } :=
  c8_recv_eof_and_malformed toyDecode "(ab".toList "xy".toList "(hi)".toList
    "expected start of value" "hi" (by decide) (by decide) (by decide) (by decide) (by decide)

/-- C9: `is_valid_mark(tile)` holds exactly when the tile is unoccupied,
and `mark(tile)` on an occupied tile returns `Retry` with the game
unchanged — same cells, same mark count, same turn. -/
theorem c9_mark_occupied_rejected : ∀ (g : GameM.Game) (t : TileId),
    (GameM.isValidMark g t = true ↔ g.board.get t = none) ∧
    (g.board.get t ≠ none →
      ∃ g2, GameM.mark g t = GameM.TurnResult.retry g2 ∧
        (∀ u, g2.board.get u = g.board.get u) ∧
        g2.board.markCount = g.board.markCount ∧ g2.turn = g.turn) := by
  intro g t
  constructor
  · simp [GameM.isValidMark, Option.isNone_iff_eq_none]
  · intro h
    refine ⟨g, ?_, fun u => rfl, rfl, rfl⟩
    simp [GameM.mark, GameM.isValidMark, Option.isNone_iff_eq_none, h]

/-- C9 witness: marking the occupied A1 tile of the concrete game is
rejected with everything unchanged. -/
theorem c9_occupied_instance :
    (GameM.isValidMark gameTopRowX TileId.A1 = true ↔
      gameTopRowX.board.get TileId.A1 = none) ∧
    (∃ g2, GameM.mark gameTopRowX TileId.A1 = GameM.TurnResult.retry g2 ∧
      (∀ u, g2.board.get u = gameTopRowX.board.get u) ∧
      g2.board.markCount = gameTopRowX.board.markCount ∧ g2.turn = gameTopRowX.turn) :=
  ⟨(c9_mark_occupied_rejected gameTopRowX TileId.A1).1,
   (c9_mark_occupied_rejected gameTopRowX TileId.A1).2 (by decide)⟩

/-- C10: the nine named constants and every successful `FromStr` parse
carry an index below 9; the parser accepts exactly the eighteen two-
character coordinate strings (nine in each case); and indexing the
nine-cell board array at any index below 9 is in bounds, so `Index` and
`IndexMut` never reach the out-of-range panic. -/
theorem c10_tileid_in_bounds :
    (∀ t ∈ tileConstants, t.val < 9) ∧
    (∀ s t, TileId.fromStr s = some t → t.val < 9 ∧ s ∈ validTileStrings) ∧
    (∀ s ∈ validTileStrings, (TileId.fromStr s).isSome = true) ∧
    (∀ (b : Board) (t : TileId), t.val < 9 → (b.1.get? t.val).isSome = true) := by
  refine ⟨by decide, ?_, ?_, ?_⟩
  · intro s t h
    unfold TileId.fromStr at h
    split at h <;> simp_all <;> subst h <;> decide
  · intro s hs
    fin_cases hs <;> decide
  · intro b t h
    rw [List.get?_eq_get (by rw [b.2]; exact h)]
    rfl

/-- C10 witness: parsing B2 in both cases, and indexing the concrete board
at the parsed tile. -/
theorem c10_instance :
    (TileId.B2.val < 9 ∧ "B2" ∈ validTileStrings) ∧
    (TileId.fromStr "c3").isSome = true ∧
    (topRowO.1.get? TileId.B2.val).isSome = true :=
  ⟨c10_tileid_in_bounds.2.1 "B2" TileId.B2 (by decide),
   c10_tileid_in_bounds.2.2.1 "c3" (by decide),
   c10_tileid_in_bounds.2.2.2 topRowO TileId.B2 (by decide)⟩

end TicTacToe
